import Mathlib

/-!
Shallow embedding of the HiTemp integration's reconciliation coordinator
(`custom_components/hitemp/coordinator.py`) and the parts of its transport
layer (`api.py`) that the coordinator observes.

Modelling conventions:
* Python floats are idealised as exact rationals (`ℚ`).
* A raw register value (Python `Any`) is modelled by `HiTemp.PValue`:
  `num q` stands for any value that Python's `float(...)` coerces to the
  number `q` (numbers and numeric strings alike); `nonNumeric` stands for a
  value on which `float(...)` raises `ValueError`/`TypeError`.
* Python dicts keyed by strings are modelled either as association lists
  (when insertion order is observable, e.g. the data snapshot) or as
  functions `String → Option _` (the per-device tracking maps).  The
  tracking maps of type `dict[str, float | None]` are collapsed to
  `String → Option ℚ`: every read in the source goes through `.get`, which
  cannot distinguish a missing key from a stored `None`.
* Network calls are replaced by an oracle (`HiTemp.ApiEnv`) recording the
  outcome every transport operation would have during one poll cycle.
* Field names drop Python's leading underscore.
-/

namespace HiTemp

/-- A raw parameter value as stored in the snapshot: either a value that
`float(...)` coerces to the rational `q`, or a non-numeric value. -/
inductive PValue where
  | num (q : ℚ)
  | nonNumeric
deriving DecidableEq, Repr

/-- Python `float(v)` under try/except: `some q` on success, `none` when the
coercion raises. -/
def PValue.toFloat? : PValue → Option ℚ
  | .num q => some q
  | .nonNumeric => none

/-- One entry of the per-device parameter map built by
`HiTempApiClient.read_params`: `{"value": ..., "rangeStart": ..., "rangeEnd": ...}`.
Each field is `Option` because the API items use `.get`. -/
structure ParamEntry where
  value : Option PValue := none
  rangeStart : Option PValue := none
  rangeEnd : Option PValue := none
deriving DecidableEq, Repr

/-- Device metadata dict; the coordinator only ever reads `"deviceCode"`
(via `.get`, hence `Option`). -/
structure DeviceMeta where
  deviceCode : Option String := none
deriving DecidableEq, Repr

/-- The per-device snapshot entry `{"_device": device, "_params": params}`. -/
structure DeviceData where
  device : DeviceMeta
  params : List (String × ParamEntry)
deriving DecidableEq, Repr

/-- `self.data`: dict device_code ↦ DeviceData, as an insertion-ordered
association list with unique keys (Python dict semantics). -/
abbrev Snapshot := List (String × DeviceData)

/-- Python `d.get(k)` on an association-list dict: first (unique) match. -/
def dget (k : String) : List (String × α) → Option α
  | [] => none
  | (k', v) :: rest => if k = k' then some v else dget k rest

/-- Python `d[k] = v`: replace in place if the key exists (keeping its
position, as CPython dicts do), else append. -/
def dinsert (k : String) (v : α) : List (String × α) → List (String × α)
  | [] => [(k, v)]
  | (k', v') :: rest =>
      if k' = k then (k, v) :: rest else (k', v') :: dinsert k v rest

/-- Point update of a function-modelled dict. -/
def fupdate (m : String → Option α) (k : String) (v : Option α) :
    String → Option α :=
  fun k' => if k' = k then v else m k'

/-- Python's builtin `max` on two numbers, written so that it evaluates in
the kernel (Mathlib's lattice `max` on `ℚ` does not reduce). -/
def pymax (a b : ℚ) : ℚ := if a ≤ b then b else a

/-- Python's builtin `min` on two numbers. -/
def pymin (a b : ℚ) : ℚ := if a ≤ b then a else b

/-- Python's builtin `abs`. -/
def pyabs (q : ℚ) : ℚ := if 0 ≤ q then q else -q

/-- `const.MIN_TEMP` -/
def MIN_TEMP : ℚ := 38
/-- `const.MAX_TEMP` -/
def MAX_TEMP : ℚ := 75
/-- `coordinator.TANK_VOLUME_LITERS` -/
def TANK_VOLUME_LITERS : ℚ := 300
/-- `coordinator.SPECIFIC_HEAT_KWH` (0.001163, idealised as an exact
rational). -/
def SPECIFIC_HEAT_KWH : ℚ := 1163 / 1000000

/-- Python `round(q, 2)`, idealised over `ℚ` (Mathlib's `round` is
round-half-up; CPython rounds exact half-cent ties to even — no claim in
this development depends on tie behaviour). -/
def round2 (q : ℚ) : ℚ := (round (q * 100) : ℤ) / 100

/-- Transport error kinds: `HiTempAuthError` / `HiTempConnectionError`. -/
inductive ApiErr where
  | auth
  | conn
deriving DecidableEq, Repr

/-- Outcomes of the external collaborators during one poll cycle:
the transport client (`get_devices`, `read_params`, `write_param`) and the
external energy-meter sensor read by `_get_energy_meter`. -/
structure ApiEnv where
  get_devices : Except ApiErr (List DeviceMeta)
  read_params : String → Except ApiErr (List (String × ParamEntry))
  write_param : String → String → ℚ → Except ApiErr Bool
  energy_meter : Option ℚ

/-- Effects emitted through the Write Gateway during a pass: the transport
writes attempted (device, code, value) and the refresh requests scheduled. -/
structure WEff where
  writes : List (String × String × ℚ)
  refresh_requests : ℕ
deriving DecidableEq, Repr

/-- No effect. -/
def WEff.nil : WEff := ⟨[], 0⟩

/-- Sequencing of effects. -/
def WEff.app (a b : WEff) : WEff :=
  ⟨a.writes ++ b.writes, a.refresh_requests + b.refresh_requests⟩

/-- The coordinator's in-memory state (`HiTempCoordinator.__init__` plus the
client handle).  The four `bottom_*` fields belong to the bottom-control
variant, whose implementation is missing from the provided sources (only its
callers in `climate.py` appear); they are modelled from the spec, see the
`*_bottom_*` definitions below. -/
structure Coordinator where
  client_initialized : Bool
  devices : List DeviceMeta
  data : Option Snapshot
  minimum_control_enabled : String → Option Bool
  minimum_target : String → Option ℚ
  last_max_temp : String → Option ℚ
  last_r01 : String → Option ℚ
  cop_last_energy_meter : String → Option ℚ
  cop_energy_stored_at_meter_change : String → Option ℚ
  cop_current : String → Option ℚ
  bottom_control_enabled : String → Option Bool
  bottom_target : String → Option ℚ
  bottom_last_t03 : String → Option ℚ
  bottom_last_r01 : String → Option ℚ

/-- The state right after process start: no snapshot, every tracking map
empty (`__init__`). -/
def initial_coordinator : Coordinator where
  client_initialized := false
  devices := []
  data := none
  minimum_control_enabled := fun _ => none
  minimum_target := fun _ => none
  last_max_temp := fun _ => none
  last_r01 := fun _ => none
  cop_last_energy_meter := fun _ => none
  cop_energy_stored_at_meter_change := fun _ => none
  cop_current := fun _ => none
  bottom_control_enabled := fun _ => none
  bottom_target := fun _ => none
  bottom_last_t03 := fun _ => none
  bottom_last_r01 := fun _ => none

/-- `HiTempCoordinator.get_device_param`: `None` when `self.data` is falsy
(unset or empty), otherwise a chain of `.get` lookups ending at `"value"`. -/
def get_device_param (st : Coordinator) (device_code param_code : String) :
    Option PValue :=
  match st.data with
  | none => none
  | some data =>
    if data.isEmpty then none
    else
      match dget device_code data with
      | none => none
      | some device_data =>
        match dget param_code device_data.params with
        | none => none
        | some param => param.value

/-- `HiTempCoordinator._get_max_temp`: `max(float(T02), float(T03))`, `None`
when either register is absent or non-numeric. -/
def get_max_temp (st : Coordinator) (device_code : String) : Option ℚ :=
  match get_device_param st device_code "T02",
        get_device_param st device_code "T03" with
  | some t02, some t03 =>
    match t02.toFloat?, t03.toFloat? with
    | some q02, some q03 => some (pymax q02 q03)
    | _, _ => none
  | _, _ => none

/-- `HiTempCoordinator._get_min_temp`. -/
def get_min_temp (st : Coordinator) (device_code : String) : Option ℚ :=
  match get_device_param st device_code "T02",
        get_device_param st device_code "T03" with
  | some t02, some t03 =>
    match t02.toFloat?, t03.toFloat? with
    | some q02, some q03 => some (pymin q02 q03)
    | _, _ => none
  | _, _ => none

/-- `HiTempCoordinator.calculate_r01_from_minimum_target`:
`(min_target + max(T02, T03)) / 2` computed first, then clamped into
`[MIN_TEMP, MAX_TEMP]`; `None` if the temperatures are unavailable. -/
def calculate_r01_from_minimum_target (st : Coordinator)
    (device_code : String) (min_target : ℚ) : Option ℚ :=
  match get_max_temp st device_code with
  | none => none
  | some max_temp =>
      some (pymax MIN_TEMP (pymin MAX_TEMP ((min_target + max_temp) / 2)))

/-- `HiTempCoordinator.calculate_minimum_target_from_r01`:
`2 * float(r01) - max(T02, T03)`, defaulting `r01` to the current `R01`
register. -/
def calculate_minimum_target_from_r01 (st : Coordinator)
    (device_code : String) (r01 : Option PValue) : Option ℚ :=
  match (match r01 with
         | none => get_device_param st device_code "R01"
         | some v => some v) with
  | none => none
  | some v =>
    match get_max_temp st device_code with
    | none => none
    | some max_temp =>
      match v.toFloat? with
      | some q => some (2 * q - max_temp)
      | none => none

/-- `HiTempCoordinator.enable_minimum_control`: set the enabled flag, store
the target, and record the current `max(T02, T03)` (and only it) as the
change-detection baseline. -/
def enable_minimum_control (st : Coordinator) (device_code : String)
    (min_target : ℚ) : Coordinator :=
  { st with
    minimum_control_enabled :=
      fupdate st.minimum_control_enabled device_code (some true)
    minimum_target := fupdate st.minimum_target device_code (some min_target)
    last_max_temp :=
      fupdate st.last_max_temp device_code (get_max_temp st device_code) }

/-- `HiTempCoordinator.disable_minimum_control`: clear only the enabled
flag. -/
def disable_minimum_control (st : Coordinator) (device_code : String) :
    Coordinator :=
  { st with
    minimum_control_enabled :=
      fupdate st.minimum_control_enabled device_code (some false) }

/-- `HiTempCoordinator.is_minimum_control_enabled`:
`self._minimum_control_enabled.get(device_code, False)`. -/
def is_minimum_control_enabled (st : Coordinator) (device_code : String) :
    Bool :=
  (st.minimum_control_enabled device_code).getD false

/-- `HiTempCoordinator.get_minimum_target`: `None` when the control is
disabled, else the stored target (which stays in the map across disable). -/
def get_minimum_target (st : Coordinator) (device_code : String) : Option ℚ :=
  if is_minimum_control_enabled st device_code then
    st.minimum_target device_code
  else none

/-- `HiTempCoordinator.async_write_param` (the Write Gateway): `False`
without a transport call when no client exists; otherwise one transport
write is attempted — on `True` a refresh is requested and `True` returned,
on `False` or on a raised auth/connectivity error `False` is returned and
nothing escapes. -/
def async_write_param (env : ApiEnv) (st : Coordinator)
    (device_code code : String) (value : ℚ) : Bool × WEff :=
  if st.client_initialized = false then (false, WEff.nil)
  else
    match env.write_param device_code code value with
    | .ok true => (true, ⟨[(device_code, code, value)], 1⟩)
    | .ok false => (false, ⟨[(device_code, code, value)], 0⟩)
    | .error _ => (false, ⟨[(device_code, code, value)], 0⟩)

/-- Second half of `HiTempCoordinator._update_minimum_control` (from the
`last_max_temp` drift check to the trailing baseline update), split out so
the early-return override branch above it stays readable. -/
def minimum_control_drift (env : ApiEnv) (st : Coordinator)
    (device_code : String) (current_max_temp current_r01 : ℚ) :
    Coordinator × WEff :=
  let steady : Coordinator × WEff :=
    ({ st with
       last_max_temp :=
         fupdate st.last_max_temp device_code (some current_max_temp)
       last_r01 := fupdate st.last_r01 device_code (some current_r01) },
     WEff.nil)
  match st.last_max_temp device_code with
  | none => steady
  | some last_max_temp =>
    if pyabs (current_max_temp - last_max_temp) > 1/10 then
      match st.minimum_target device_code with
      | none => steady
      | some min_target =>
        match calculate_r01_from_minimum_target st device_code min_target with
        | none => steady
        | some new_r01 =>
          if pyabs (new_r01 - current_r01) > 1/10 then
            let wr := async_write_param env st device_code "R01" new_r01
            ({ st with
               last_r01 := fupdate st.last_r01 device_code (some new_r01) },
             wr.2)
          else steady
    else steady

/-- `HiTempCoordinator._update_minimum_control` (the reconcile pass for one
device): no-op when disabled or when `max(T02,T03)` / `R01` is unreadable;
external-override branch disables the control and refreshes both baselines;
otherwise falls through to `minimum_control_drift`. -/
def update_minimum_control (env : ApiEnv) (st : Coordinator)
    (device_code : String) : Coordinator × WEff :=
  if is_minimum_control_enabled st device_code then
    match get_max_temp st device_code with
    | none => (st, WEff.nil)
    | some current_max_temp =>
      match get_device_param st device_code "R01" with
      | none => (st, WEff.nil)
      | some r01_raw =>
        match r01_raw.toFloat? with
        | none => (st, WEff.nil)
        | some current_r01 =>
          match st.last_r01 device_code with
          | some last_r01 =>
            if pyabs (current_r01 - last_r01) > 1/10 then
              let st1 := disable_minimum_control st device_code
              ({ st1 with
                 last_max_temp :=
                   fupdate st1.last_max_temp device_code
                     (some current_max_temp)
                 last_r01 :=
                   fupdate st1.last_r01 device_code (some current_r01) },
               WEff.nil)
            else
              minimum_control_drift env st device_code current_max_temp
                current_r01
          | none =>
            minimum_control_drift env st device_code current_max_temp
              current_r01
  else (st, WEff.nil)

/-- `HiTempCoordinator._get_energy_stored`:
`TANK_VOLUME_LITERS * SPECIFIC_HEAT_KWH * float(T02)`. -/
def get_energy_stored (st : Coordinator) (device_code : String) : Option ℚ :=
  match get_device_param st device_code "T02" with
  | none => none
  | some t02 =>
    match t02.toFloat? with
    | some q => some (TANK_VOLUME_LITERS * SPECIFIC_HEAT_KWH * q)
    | none => none

/-- `HiTempCoordinator._update_cop`: no-op when the external meter is
unreadable; on the first observation record meter and stored energy; on an
unchanged meter do nothing; on a change, assign
`round(delta_stored / delta_meter, 2)` only when both stored energies are
known and the meter delta is positive, then always roll the tracking state
forward. -/
def update_cop (env : ApiEnv) (st : Coordinator) (device_code : String) :
    Coordinator :=
  match env.energy_meter with
  | none => st
  | some current_energy_meter =>
    match st.cop_last_energy_meter device_code with
    | none =>
      { st with
        cop_last_energy_meter :=
          fupdate st.cop_last_energy_meter device_code
            (some current_energy_meter)
        cop_energy_stored_at_meter_change :=
          fupdate st.cop_energy_stored_at_meter_change device_code
            (get_energy_stored st device_code) }
    | some last_energy_meter =>
      if current_energy_meter = last_energy_meter then st
      else
        let current_energy_stored := get_energy_stored st device_code
        let st1 :=
          match current_energy_stored,
                st.cop_energy_stored_at_meter_change device_code with
          | some cs, some ss =>
            if current_energy_meter - last_energy_meter > 0 then
              { st with
                cop_current :=
                  fupdate st.cop_current device_code
                    (some (round2
                      ((cs - ss) /
                        (current_energy_meter - last_energy_meter)))) }
            else st
          | _, _ => st
        { st1 with
          cop_last_energy_meter :=
            fupdate st1.cop_last_energy_meter device_code
              (some current_energy_meter)
          cop_energy_stored_at_meter_change :=
            fupdate st1.cop_energy_stored_at_meter_change device_code
              current_energy_stored }

/-- `HiTempCoordinator.get_cop`. -/
def get_cop (st : Coordinator) (device_code : String) : Option ℚ :=
  st.cop_current device_code

/-- The per-device fetch loop of `_async_update_data`: skip devices with a
falsy `deviceCode`, store metadata with empty params, then bulk-read the
parameter catalog — a raised read error aborts the whole cycle (the local
dict is discarded). -/
def fetch_devices_data (env : ApiEnv) :
    List DeviceMeta → Snapshot → Except ApiErr Snapshot
  | [], data => .ok data
  | device :: rest, data =>
    match device.deviceCode with
    | none => fetch_devices_data env rest data
    | some device_code =>
      if device_code = "" then fetch_devices_data env rest data
      else
        let data1 := dinsert device_code ⟨device, []⟩ data
        match env.read_params device_code with
        | .error e => .error e
        | .ok params =>
            fetch_devices_data env rest
              (dinsert device_code ⟨device, params⟩ data1)

/-- The reconcile loop of `_async_update_data`: for each device code of the
fresh snapshot run `_update_minimum_control` then `_update_cop`. -/
def run_control_loop (env : ApiEnv) :
    List String → Coordinator → Coordinator × WEff
  | [], st => (st, WEff.nil)
  | device_code :: rest, st =>
    let r1 := update_minimum_control env st device_code
    let st2 := update_cop env r1.1 device_code
    let r3 := run_control_loop env rest st2
    (r3.1, WEff.app r1.2 r3.2)

/-- Terminal outcome of one refresh cycle: `ConfigEntryAuthFailed` or
`UpdateFailed` (the latter covers both connectivity errors and the missing
client). -/
inductive CycleErr where
  | authFailed
  | updateFailed
deriving DecidableEq, Repr

/-- `HiTempCoordinator._async_update_data`: refresh the device list, fetch
all registers per device, replace `self.data` wholesale, then run the
reconcile and COP passes.  Mutations performed before a raised error
persist (only `self.devices` when a read fails); `self.data` is assigned
exactly once, after every read has succeeded. -/
def async_update_data (env : ApiEnv) (st : Coordinator) :
    Coordinator × Except CycleErr Snapshot :=
  if st.client_initialized = false then (st, .error .updateFailed)
  else
    match env.get_devices with
    | .error .auth => (st, .error .authFailed)
    | .error .conn => (st, .error .updateFailed)
    | .ok devs =>
      let st1 := { st with devices := devs }
      match fetch_devices_data env devs [] with
      | .error .auth => (st1, .error .authFailed)
      | .error .conn => (st1, .error .updateFailed)
      | .ok data =>
        let st2 := { st1 with data := some data }
        let r := run_control_loop env (data.map Prod.fst) st2
        (r.1, .ok data)

/-- Modelled from the spec: the bottom-control variant's driver sensor.
The coordinator's bottom-control implementation is absent from the provided
sources (only its callers in `climate.py` appear); per §4.3 the bottom
driver is a single sensor, and `climate.py`'s formula comment names it
`T03`. -/
def get_bottom_driver (st : Coordinator) (device_code : String) : Option ℚ :=
  match get_device_param st device_code "T03" with
  | none => none
  | some t03 => t03.toFloat?

/-- Modelled from the spec: `calculate_setpoint` for the bottom control,
`R01 = (bottom_target + T03) / 2` clamped into the legal bounds, absent when
the driver is unreadable (§4.3, `climate.py` formula comment). -/
def calculate_r01_from_bottom_target (st : Coordinator) (device_code : String)
    (bottom_target : ℚ) : Option ℚ :=
  match get_bottom_driver st device_code with
  | none => none
  | some driver =>
      some (pymax MIN_TEMP (pymin MAX_TEMP ((bottom_target + driver) / 2)))

/-- Modelled from the spec: `calculate_implied_target` for the bottom
control, `target = 2*setpoint − driver`, defaulting to the current `R01`
(§4.3). -/
def calculate_bottom_target_from_r01 (st : Coordinator) (device_code : String)
    (r01 : Option PValue) : Option ℚ :=
  match (match r01 with
         | none => get_device_param st device_code "R01"
         | some v => some v) with
  | none => none
  | some v =>
    match get_bottom_driver st device_code with
    | none => none
    | some driver =>
      match v.toFloat? with
      | some q => some (2 * q - driver)
      | none => none

/-- Modelled from the spec: `enable(device, target)` for the bottom control
"marks the control enabled, stores target, captures the current
driver-sensor value and current physical-setpoint value as baseline. No
write is issued on enable." (§4.3). -/
def enable_bottom_control (st : Coordinator) (device_code : String)
    (bottom_target : ℚ) : Coordinator :=
  { st with
    bottom_control_enabled :=
      fupdate st.bottom_control_enabled device_code (some true)
    bottom_target := fupdate st.bottom_target device_code (some bottom_target)
    bottom_last_t03 :=
      fupdate st.bottom_last_t03 device_code (get_bottom_driver st device_code)
    bottom_last_r01 :=
      fupdate st.bottom_last_r01 device_code
        ((get_device_param st device_code "R01").bind PValue.toFloat?) }

/-- Modelled from the spec: `disable(device)` for the bottom control "marks
the control disabled; baseline is discarded" (§4.3). -/
def disable_bottom_control (st : Coordinator) (device_code : String) :
    Coordinator :=
  { st with
    bottom_control_enabled :=
      fupdate st.bottom_control_enabled device_code (some false)
    bottom_last_t03 := fupdate st.bottom_last_t03 device_code none
    bottom_last_r01 := fupdate st.bottom_last_r01 device_code none }

/-- Modelled from the spec: `is_control_enabled` for the bottom control
(§6), mirroring the minimum variant's default-false lookup. -/
def is_bottom_control_enabled (st : Coordinator) (device_code : String) :
    Bool :=
  (st.bottom_control_enabled device_code).getD false

/-- Modelled from the spec: `get_control_target` for the bottom control
(§6), absent while disabled, mirroring the minimum variant. -/
def get_bottom_target (st : Coordinator) (device_code : String) : Option ℚ :=
  if is_bottom_control_enabled st device_code then
    st.bottom_target device_code
  else none

/-- Modelled from the spec: steps 3–4 of `reconcile` for the bottom control
(§4.3), identical to `minimum_control_drift` with the bottom driver and
baselines. -/
def bottom_control_drift (env : ApiEnv) (st : Coordinator)
    (device_code : String) (current_driver current_r01 : ℚ) :
    Coordinator × WEff :=
  let steady : Coordinator × WEff :=
    ({ st with
       bottom_last_t03 :=
         fupdate st.bottom_last_t03 device_code (some current_driver)
       bottom_last_r01 :=
         fupdate st.bottom_last_r01 device_code (some current_r01) },
     WEff.nil)
  match st.bottom_last_t03 device_code with
  | none => steady
  | some last_driver =>
    if pyabs (current_driver - last_driver) > 1/10 then
      match st.bottom_target device_code with
      | none => steady
      | some bottom_target =>
        match calculate_r01_from_bottom_target st device_code bottom_target with
        | none => steady
        | some new_r01 =>
          if pyabs (new_r01 - current_r01) > 1/10 then
            let wr := async_write_param env st device_code "R01" new_r01
            ({ st with
               bottom_last_r01 :=
                 fupdate st.bottom_last_r01 device_code (some new_r01) },
             wr.2)
          else steady
    else steady

/-- Modelled from the spec: `reconcile` for the bottom control (§4.3) with
the ADOPT override policy — when the setpoint moved externally the control
"re-derives and adopts the implied target from the new setpoint (treats the
manual change as a re-aim) and continues", updating both baselines before
returning in that branch. -/
def update_bottom_control (env : ApiEnv) (st : Coordinator)
    (device_code : String) : Coordinator × WEff :=
  if is_bottom_control_enabled st device_code then
    match get_bottom_driver st device_code with
    | none => (st, WEff.nil)
    | some current_driver =>
      match get_device_param st device_code "R01" with
      | none => (st, WEff.nil)
      | some r01_raw =>
        match r01_raw.toFloat? with
        | none => (st, WEff.nil)
        | some current_r01 =>
          match st.bottom_last_r01 device_code with
          | some last_r01 =>
            if pyabs (current_r01 - last_r01) > 1/10 then
              ({ st with
                 bottom_target :=
                   fupdate st.bottom_target device_code
                     (some (2 * current_r01 - current_driver))
                 bottom_last_t03 :=
                   fupdate st.bottom_last_t03 device_code (some current_driver)
                 bottom_last_r01 :=
                   fupdate st.bottom_last_r01 device_code (some current_r01) },
               WEff.nil)
            else
              bottom_control_drift env st device_code current_driver
                current_r01
          | none =>
            bottom_control_drift env st device_code current_driver current_r01
  else (st, WEff.nil)

/-- A one-device snapshot parameter map holding numeric `T02`, `T03`,
`R01`. -/
def sample_params (t02 t03 r01 : ℚ) : List (String × ParamEntry) :=
  [("T02", { value := some (.num t02) }),
   ("T03", { value := some (.num t03) }),
   ("R01", { value := some (.num r01) })]

/-- A coordinator that finished a successful poll of the single device
`"dev"`, with all tracking maps still empty. -/
def sample_coordinator (t02 t03 r01 : ℚ) : Coordinator :=
  { initial_coordinator with
    client_initialized := true
    devices := [{ deviceCode := some "dev" }]
    data :=
      some [("dev",
        { device := { deviceCode := some "dev" }
          params := sample_params t02 t03 r01 })] }

/-- `sample_coordinator` with the minimum control enabled for `"dev"` and
the given stored target and baselines. -/
def sample_min_enabled (t02 t03 r01 : ℚ)
    (target lastMax lastR01 : Option ℚ) : Coordinator :=
  { sample_coordinator t02 t03 r01 with
    minimum_control_enabled := fun c => if c = "dev" then some true else none
    minimum_target := fun c => if c = "dev" then target else none
    last_max_temp := fun c => if c = "dev" then lastMax else none
    last_r01 := fun c => if c = "dev" then lastR01 else none }

/-- A one-device collaborator environment with a fixed write outcome and
meter reading. -/
def sample_env (wr : Except ApiErr Bool) (meter : Option ℚ) : ApiEnv :=
  { get_devices := .ok [{ deviceCode := some "dev" }]
    read_params := fun _ => .ok (sample_params 70 65 60)
    write_param := fun _ _ _ => wr
    energy_meter := meter }

/-- `sample_coordinator` with COP tracking state set for `"dev"`. -/
def sample_cop (t02 t03 r01 : ℚ) (lastMeter stored cur : Option ℚ) :
    Coordinator :=
  { sample_coordinator t02 t03 r01 with
    cop_last_energy_meter := fun c => if c = "dev" then lastMeter else none
    cop_energy_stored_at_meter_change :=
      fun c => if c = "dev" then stored else none
    cop_current := fun c => if c = "dev" then cur else none }

/-- A collaborator environment whose every transport call fails with a
connectivity error. -/
def sample_env_down : ApiEnv :=
  { get_devices := .error .conn
    read_params := fun _ => .error .conn
    write_param := fun _ _ _ => .error .conn
    energy_meter := none }

/-- `sample_coordinator` with the (spec-modelled) bottom control enabled
for `"dev"` and the given stored target and baselines. -/
def sample_bottom_enabled (t02 t03 r01 : ℚ)
    (target lastT03 lastR01 : Option ℚ) : Coordinator :=
  { sample_coordinator t02 t03 r01 with
    bottom_control_enabled := fun c => if c = "dev" then some true else none
    bottom_target := fun c => if c = "dev" then target else none
    bottom_last_t03 := fun c => if c = "dev" then lastT03 else none
    bottom_last_r01 := fun c => if c = "dev" then lastR01 else none }

/-- The minimum-control state invariant: while a device's control is
enabled, a stored target exists for it. -/
def MinInv (st : Coordinator) : Prop :=
  ∀ d, is_minimum_control_enabled st d = true →
    (st.minimum_target d).isSome = true

/-! ### Helper lemmas -/

theorem dget_nil (k : String) : dget k ([] : List (String × α)) = none := rfl

theorem dget_cons (k k' : String) (v : α) (l : List (String × α)) :
    dget k ((k', v) :: l) = if k = k' then some v else dget k l := rfl

@[simp] theorem fupdate_same (m : String → Option α) (k : String)
    (v : Option α) : fupdate m k v k = v := by
  simp [fupdate]

theorem fupdate_other (m : String → Option α) (k k' : String) (v : Option α)
    (h : k' ≠ k) : fupdate m k v k' = m k' := by
  simp [fupdate, h]

theorem pymax_eq (a b : ℚ) : pymax a b = max a b := (max_def a b).symm

theorem pymin_eq (a b : ℚ) : pymin a b = min a b := (min_def a b).symm

theorem pyabs_eq (q : ℚ) : pyabs q = |q| := by
  rcases le_total 0 q with h | h
  · rw [pyabs, if_pos h, abs_of_nonneg h]
  · rcases eq_or_lt_of_le h with rfl | h'
    · simp [pyabs]
    · rw [pyabs, if_neg (not_le.mpr h'), abs_of_neg h']

/-- C1, counterexample: at driver `max(T02,T03) = 70` and target `50` the
code returns `60`, whereas the claim's formula — the sum clamped into
`[38, 75]` first and only then halved — yields `75 / 2 = 37.5`; the claim's
stated order of operations contradicts both the code and its own expected
value `60`. -/
theorem C1_clamp_order_counterexample :
    calculate_r01_from_minimum_target (sample_coordinator 70 65 60) "dev" 50
        = some 60 ∧
    max MIN_TEMP (min MAX_TEMP (50 + 70)) / 2 = 75 / 2 ∧
    ((75 : ℚ) / 2 ≠ 60) := by
  refine ⟨?_, ?_, by norm_num⟩
  · simp [calculate_r01_from_minimum_target, get_max_temp,
      get_device_param, sample_coordinator, sample_params,
      initial_coordinator, dget_cons, dget_nil, PValue.toFloat?,
      pymax, pymin, MIN_TEMP, MAX_TEMP]
    norm_num
  · rw [MIN_TEMP, MAX_TEMP, min_eq_left (by norm_num),
      max_eq_right (by norm_num)]

/-- C1, amended: for every device and target, when the driver-sensor value
(the max of registers `T02` and `T03`) is readable and numeric,
`calculate_r01_from_minimum_target` returns
`clamp((target + driver) / 2, 38, 75)` — the sum is halved first and the
result then clamped — which is `60` for driver `70`, target `50`; it
returns absent when the driver sensor is unreadable. -/
theorem C1_setpoint_halved_then_clamped :
    (∀ st d (mt : ℚ), calculate_r01_from_minimum_target st d mt =
        (get_max_temp st d).map
          (fun m => max MIN_TEMP (min MAX_TEMP ((mt + m) / 2)))) ∧
    calculate_r01_from_minimum_target (sample_coordinator 70 65 60) "dev" 50
        = some 60 := by
  constructor
  · intro st d mt
    cases h : get_max_temp st d with
    | none => simp [calculate_r01_from_minimum_target, h]
    | some m =>
        simp [calculate_r01_from_minimum_target, h, pymax_eq, pymin_eq]
  · simp [calculate_r01_from_minimum_target, get_max_temp,
      get_device_param, sample_coordinator, sample_params,
      initial_coordinator, dget_cons, dget_nil, PValue.toFloat?,
      pymax, pymin, MIN_TEMP, MAX_TEMP]
    norm_num

/-- C6, counterexample: with `R01` readable as `55` and all tracking maps
empty, `enable_minimum_control` with target `48` leaves the setpoint
baseline (`_last_r01`) empty — the current physical-setpoint value is not
captured at enable, contradicting the claim that both baselines are. -/
theorem C6_enable_counterexample :
    get_device_param (sample_coordinator 70 65 55) "dev" "R01"
        = some (.num 55) ∧
    (enable_minimum_control (sample_coordinator 70 65 55) "dev" 48).last_r01
        "dev" = none ∧
    (enable_minimum_control (sample_coordinator 70 65 55) "dev" 48).last_r01
        "dev" ≠ some 55 := by
  refine ⟨?_, ?_, ?_⟩ <;>
    simp [get_device_param, sample_coordinator, sample_params,
      initial_coordinator, dget_cons, dget_nil, enable_minimum_control]

/-- C6, amended: for every device and target, `enable_minimum_control`
marks the control enabled, stores the target and captures the current
driver-sensor value `max(T02, T03)` as the driver baseline, but it does not
touch the setpoint baseline (that is established by the next reconcile
pass); enable issues no write (it is a pure state update with no Write
Gateway effect). -/
theorem C6_enable_captures_driver_only :
    ∀ (st : Coordinator) (d : String) (t : ℚ),
      is_minimum_control_enabled (enable_minimum_control st d t) d = true ∧
      (enable_minimum_control st d t).minimum_target d = some t ∧
      (enable_minimum_control st d t).last_max_temp d = get_max_temp st d ∧
      (enable_minimum_control st d t).last_r01 d = st.last_r01 d := by
  intro st d t
  refine ⟨?_, ?_, ?_, rfl⟩ <;>
    simp [enable_minimum_control, is_minimum_control_enabled]

/-- C7: round-trip law — whenever the driver sensor reads `dr` and the
ideal setpoint `(mt + dr) / 2` lies inside `[MIN_TEMP, MAX_TEMP]` (so the
clamp is the identity), `calculate_r01_from_minimum_target` returns exactly
the ideal setpoint and `calculate_minimum_target_from_r01` maps it back to
the original target against the same driver value. -/
theorem C7_round_trip (st : Coordinator) (d : String) (mt dr : ℚ)
    (h : get_max_temp st d = some dr)
    (hlo : MIN_TEMP ≤ (mt + dr) / 2) (hhi : (mt + dr) / 2 ≤ MAX_TEMP) :
    calculate_r01_from_minimum_target st d mt = some ((mt + dr) / 2) ∧
    calculate_minimum_target_from_r01 st d (some (.num ((mt + dr) / 2)))
        = some mt := by
  constructor
  · simp only [calculate_r01_from_minimum_target, h]
    rw [pymin_eq, pymax_eq, min_eq_right hhi, max_eq_right hlo]
  · simp only [calculate_minimum_target_from_r01, h, PValue.toFloat?]
    congr 1
    ring

/-- C7, witness: the round-trip at driver `70`, target `50` (ideal setpoint
`60 ∈ [38, 75]`). -/
theorem C7_round_trip_witness :
    calculate_r01_from_minimum_target (sample_coordinator 70 65 60) "dev" 50
        = some ((50 + 70) / 2) ∧
    calculate_minimum_target_from_r01 (sample_coordinator 70 65 60) "dev"
        (some (.num ((50 + 70) / 2))) = some 50 :=
  C7_round_trip (sample_coordinator 70 65 60) "dev" 50 70
    (by simp [get_max_temp, get_device_param, sample_coordinator,
          sample_params, initial_coordinator, dget_cons, dget_nil,
          PValue.toFloat?, pymax]
        norm_num)
    (by norm_num [MIN_TEMP]) (by norm_num [MAX_TEMP])

/-- C2: for every enabled minimum control whose reconcile pass reads a
numeric driver value `cmt` and a numeric current setpoint `cr01`, if a
setpoint baseline `lr01` exists with `|cr01 − lr01| > 0.1`, then the
reconcile pass disables the control, sets the tracked baselines to the
current driver value and the current setpoint, and issues no write. -/
theorem C2_override_disables (env : ApiEnv) (st : Coordinator) (d : String)
    (cmt cr01 lr01 : ℚ) (rv : PValue)
    (hen : is_minimum_control_enabled st d = true)
    (hmax : get_max_temp st d = some cmt)
    (hr : get_device_param st d "R01" = some rv)
    (hq : rv.toFloat? = some cr01)
    (hb : st.last_r01 d = some lr01)
    (hd : |cr01 - lr01| > 1/10) :
    is_minimum_control_enabled (update_minimum_control env st d).1 d
        = false ∧
    (update_minimum_control env st d).1.last_max_temp d = some cmt ∧
    (update_minimum_control env st d).1.last_r01 d = some cr01 ∧
    (update_minimum_control env st d).2.writes = [] := by
  have hd' : pyabs (cr01 - lr01) > 1/10 := by rw [pyabs_eq]; exact hd
  simp only [update_minimum_control, hen, if_true, hmax, hr, hq, hb,
    if_pos hd']
  refine ⟨?_, ?_, ?_, rfl⟩ <;>
    simp [disable_minimum_control, is_minimum_control_enabled, WEff.nil]

/-- C2, witness: the spec's example — baseline setpoint `60`, current
setpoint observed as `65`, driver `70`: the control is disabled and the
baselines refreshed to `(70, 65)` with no write issued. -/
theorem C2_override_disables_witness :
    is_minimum_control_enabled
        (update_minimum_control (sample_env (.ok true) none)
          (sample_min_enabled 70 65 65 (some 50) (some 70) (some 60))
          "dev").1 "dev" = false ∧
    (update_minimum_control (sample_env (.ok true) none)
        (sample_min_enabled 70 65 65 (some 50) (some 70) (some 60))
        "dev").1.last_max_temp "dev" = some 70 ∧
    (update_minimum_control (sample_env (.ok true) none)
        (sample_min_enabled 70 65 65 (some 50) (some 70) (some 60))
        "dev").1.last_r01 "dev" = some 65 ∧
    (update_minimum_control (sample_env (.ok true) none)
        (sample_min_enabled 70 65 65 (some 50) (some 70) (some 60))
        "dev").2.writes = [] :=
  C2_override_disables (sample_env (.ok true) none)
    (sample_min_enabled 70 65 65 (some 50) (some 70) (some 60)) "dev"
    70 65 60 (.num 65)
    (by simp [is_minimum_control_enabled, sample_min_enabled])
    (by simp [get_max_temp, get_device_param, sample_min_enabled,
          sample_coordinator, sample_params, initial_coordinator,
          dget_cons, dget_nil, PValue.toFloat?, pymax]
        norm_num)
    (by simp [get_device_param, sample_min_enabled, sample_coordinator,
          sample_params, initial_coordinator, dget_cons, dget_nil])
    rfl
    (by simp [sample_min_enabled])
    (by rw [abs_of_pos (by norm_num : (0:ℚ) < 65 - 60)]; norm_num)

/-- When the reconcile pass reads a numeric driver and setpoint and the
override branch does not fire, it continues into the drift check. -/
theorem update_minimum_control_to_drift (env : ApiEnv) (st : Coordinator)
    (d : String) (cmt cr01 : ℚ) (rv : PValue)
    (hen : is_minimum_control_enabled st d = true)
    (hmax : get_max_temp st d = some cmt)
    (hr : get_device_param st d "R01" = some rv)
    (hq : rv.toFloat? = some cr01)
    (hnoov : ∀ lr, st.last_r01 d = some lr → ¬ pyabs (cr01 - lr) > 1/10) :
    update_minimum_control env st d
        = minimum_control_drift env st d cmt cr01 := by
  simp only [update_minimum_control, hen, if_true, hmax, hr, hq]
  rcases hlr : st.last_r01 d with _ | lr
  · rfl
  · simp only [if_neg (hnoov lr hlr)]

/-- When the driver moved by more than the deadband and the freshly
computed setpoint differs from the current one by more than the deadband,
the drift branch issues exactly one transport write of the new setpoint
and records it as the new setpoint baseline, leaving every other field
(including the driver baseline) untouched — regardless of the write's
outcome. -/
theorem minimum_control_drift_spec (env : ApiEnv) (st : Coordinator)
    (d : String) (cmt cr01 lmt mt new_r01 : ℚ)
    (hlmt : st.last_max_temp d = some lmt)
    (hd : pyabs (cmt - lmt) > 1/10)
    (htgt : st.minimum_target d = some mt)
    (hcalc : calculate_r01_from_minimum_target st d mt = some new_r01)
    (hn : pyabs (new_r01 - cr01) > 1/10)
    (hcl : st.client_initialized = true) :
    (minimum_control_drift env st d cmt cr01).1
        = { st with last_r01 := fupdate st.last_r01 d (some new_r01) } ∧
    (minimum_control_drift env st d cmt cr01).2.writes
        = [(d, "R01", new_r01)] := by
  simp only [minimum_control_drift, hlmt, htgt, hcalc, hd, if_true,
    async_write_param, hcl, Bool.true_eq_false, if_false, hn]
  cases hw : env.write_param d "R01" new_r01 with
  | ok b => cases b <;> simp [hw]
  | error e => simp [hw]

/-- C3: for every enabled minimum control with no override detected
(every existing setpoint baseline is within the `0.1` deadband of the
current setpoint), if a driver baseline exists with
`|current_driver − baseline_driver| > 0.1` and the recomputed ideal
setpoint for the stored target differs from the current setpoint by more
than `0.1`, then the reconcile pass issues exactly one write of the new
setpoint, records the written value as the new setpoint baseline, and
returns without touching the driver baseline or the enabled flag. -/
theorem C3_driver_change_single_write (env : ApiEnv) (st : Coordinator)
    (d : String) (cmt cr01 lmt mt new_r01 : ℚ) (rv : PValue)
    (hen : is_minimum_control_enabled st d = true)
    (hmax : get_max_temp st d = some cmt)
    (hr : get_device_param st d "R01" = some rv)
    (hq : rv.toFloat? = some cr01)
    (hnoov : ∀ lr, st.last_r01 d = some lr → |cr01 - lr| ≤ 1/10)
    (hlmt : st.last_max_temp d = some lmt)
    (hdrift : |cmt - lmt| > 1/10)
    (htgt : st.minimum_target d = some mt)
    (hcalc : calculate_r01_from_minimum_target st d mt = some new_r01)
    (hnew : |new_r01 - cr01| > 1/10) :
    st.client_initialized = true →
    (update_minimum_control env st d).2.writes = [(d, "R01", new_r01)] ∧
    (update_minimum_control env st d).1.last_r01 d = some new_r01 ∧
    (update_minimum_control env st d).1.last_max_temp
        = st.last_max_temp ∧
    (update_minimum_control env st d).1.minimum_control_enabled
        = st.minimum_control_enabled := by
  intro hcl
  rw [update_minimum_control_to_drift env st d cmt cr01 rv hen hmax hr hq
    (fun lr h => by rw [pyabs_eq]; exact not_lt.mpr (hnoov lr h))]
  obtain ⟨h1, h2⟩ := minimum_control_drift_spec env st d cmt cr01 lmt mt
    new_r01 hlmt (by rw [pyabs_eq]; exact hdrift) htgt hcalc
    (by rw [pyabs_eq]; exact hnew) hcl
  refine ⟨h2, ?_, ?_, ?_⟩ <;> (rw [h1]; try simp)

/-- C3, witness: the spec's example — driver changes `70 → 74` with stored
target `50` and setpoint baseline `60`: exactly one write of
`clamp((50 + 74) / 2) = 62` is issued, `62` becomes the setpoint baseline,
and the driver baseline is not updated in that pass. -/
theorem C3_driver_change_single_write_witness :
    (update_minimum_control (sample_env (.ok true) none)
        (sample_min_enabled 74 70 60 (some 50) (some 70) (some 60))
        "dev").2.writes = [("dev", "R01", 62)] ∧
    (update_minimum_control (sample_env (.ok true) none)
        (sample_min_enabled 74 70 60 (some 50) (some 70) (some 60))
        "dev").1.last_r01 "dev" = some 62 ∧
    (update_minimum_control (sample_env (.ok true) none)
        (sample_min_enabled 74 70 60 (some 50) (some 70) (some 60))
        "dev").1.last_max_temp
        = (sample_min_enabled 74 70 60 (some 50) (some 70)
            (some 60)).last_max_temp ∧
    (update_minimum_control (sample_env (.ok true) none)
        (sample_min_enabled 74 70 60 (some 50) (some 70) (some 60))
        "dev").1.minimum_control_enabled
        = (sample_min_enabled 74 70 60 (some 50) (some 70)
            (some 60)).minimum_control_enabled :=
  C3_driver_change_single_write (sample_env (.ok true) none)
    (sample_min_enabled 74 70 60 (some 50) (some 70) (some 60)) "dev"
    74 60 70 50 62 (.num 60)
    (by simp [is_minimum_control_enabled, sample_min_enabled])
    (by simp [get_max_temp, get_device_param, sample_min_enabled,
          sample_coordinator, sample_params, initial_coordinator,
          dget_cons, dget_nil, PValue.toFloat?, pymax]
        norm_num)
    (by simp [get_device_param, sample_min_enabled, sample_coordinator,
          sample_params, initial_coordinator, dget_cons, dget_nil])
    rfl
    (by intro lr h
        simp [sample_min_enabled] at h
        rw [← h]
        norm_num)
    (by simp [sample_min_enabled])
    (by rw [abs_of_pos (by norm_num : (0:ℚ) < 74 - 70)]; norm_num)
    (by simp [sample_min_enabled])
    (by simp [calculate_r01_from_minimum_target, get_max_temp,
          get_device_param, sample_min_enabled, sample_coordinator,
          sample_params, initial_coordinator, dget_cons, dget_nil,
          PValue.toFloat?, pymax, pymin, MIN_TEMP, MAX_TEMP]
        norm_num)
    (by rw [abs_of_pos (by norm_num : (0:ℚ) < 62 - 60)]; norm_num)
    rfl

/-- C4, failing input: driver changed `70 → 74`, stored target `50`,
setpoint baseline `60`, and the transport write of the recomputed setpoint
`62` raises a connectivity error.  The Write Gateway does return
`success = false` without the exception escaping (first conjunct; the
embedding is a total function), but the reconcile pass still records the
attempted value `62` as the new setpoint baseline (last conjunct) even
though the baseline was `60` before and no write succeeded — the caller
does not treat the failed write as "no state change happened". -/
theorem C4_failed_write_still_updates_baseline :
    (async_write_param (sample_env (.error .conn) none)
        (sample_min_enabled 74 70 60 (some 50) (some 70) (some 60))
        "dev" "R01" 62).1 = false ∧
    (update_minimum_control (sample_env (.error .conn) none)
        (sample_min_enabled 74 70 60 (some 50) (some 70) (some 60))
        "dev").2.writes = [("dev", "R01", 62)] ∧
    (sample_min_enabled 74 70 60 (some 50) (some 70) (some 60)).last_r01
        "dev" = some 60 ∧
    (update_minimum_control (sample_env (.error .conn) none)
        (sample_min_enabled 74 70 60 (some 50) (some 70) (some 60))
        "dev").1.last_r01 "dev" = some 62 := by
  have hto := update_minimum_control_to_drift
    (sample_env (.error .conn) none)
    (sample_min_enabled 74 70 60 (some 50) (some 70) (some 60)) "dev"
    74 60 (.num 60)
    (by simp [is_minimum_control_enabled, sample_min_enabled])
    (by simp [get_max_temp, get_device_param, sample_min_enabled,
          sample_coordinator, sample_params, initial_coordinator,
          dget_cons, dget_nil, PValue.toFloat?, pymax]
        norm_num)
    (by simp [get_device_param, sample_min_enabled, sample_coordinator,
          sample_params, initial_coordinator, dget_cons, dget_nil])
    rfl
    (by intro lr h
        simp [sample_min_enabled] at h
        rw [← h]
        norm_num [pyabs])
  have hsp := minimum_control_drift_spec (sample_env (.error .conn) none)
    (sample_min_enabled 74 70 60 (some 50) (some 70) (some 60)) "dev"
    74 60 70 50 62
    (by simp [sample_min_enabled])
    (by norm_num [pyabs])
    (by simp [sample_min_enabled])
    (by simp [calculate_r01_from_minimum_target, get_max_temp,
          get_device_param, sample_min_enabled, sample_coordinator,
          sample_params, initial_coordinator, dget_cons, dget_nil,
          PValue.toFloat?, pymax, pymin, MIN_TEMP, MAX_TEMP]
        norm_num)
    (by norm_num [pyabs])
    rfl
  refine ⟨?_, ?_, ?_, ?_⟩
  · simp [async_write_param, sample_env, sample_min_enabled,
      sample_coordinator, initial_coordinator]
  · rw [hto]
    exact hsp.2
  · simp [sample_min_enabled]
  · rw [hto, hsp.1]
    simp

/-- C5: the COP update's case analysis for every device and cycle —
(1) absent meter reading: no-op; (2) first observation: record the meter
value and the stored energy, COP stays absent; (3) unchanged meter: no-op
entirely; (4) positive meter delta with both stored energies known: COP
becomes `round2(delta_stored / delta_meter)` and tracking rolls forward;
(5) non-positive meter delta: COP is not assigned but tracking still rolls
forward to the new reading; (6) the stored energy is
`300 × 0.001163 × T02`. -/
theorem C5_cop_update_cases :
    (∀ (env : ApiEnv) (st : Coordinator) (d : String),
       env.energy_meter = none → update_cop env st d = st) ∧
    (∀ (env : ApiEnv) (st : Coordinator) (d : String) (m : ℚ),
       env.energy_meter = some m →
       st.cop_last_energy_meter d = none → st.cop_current d = none →
       (update_cop env st d).cop_last_energy_meter d = some m ∧
       (update_cop env st d).cop_energy_stored_at_meter_change d
           = get_energy_stored st d ∧
       (update_cop env st d).cop_current d = none) ∧
    (∀ (env : ApiEnv) (st : Coordinator) (d : String) (m : ℚ),
       env.energy_meter = some m →
       st.cop_last_energy_meter d = some m → update_cop env st d = st) ∧
    (∀ (env : ApiEnv) (st : Coordinator) (d : String) (m lm cs ss : ℚ),
       env.energy_meter = some m →
       st.cop_last_energy_meter d = some lm → m ≠ lm →
       get_energy_stored st d = some cs →
       st.cop_energy_stored_at_meter_change d = some ss →
       m - lm > 0 →
       (update_cop env st d).cop_current d
           = some (round2 ((cs - ss) / (m - lm))) ∧
       (update_cop env st d).cop_last_energy_meter d = some m ∧
       (update_cop env st d).cop_energy_stored_at_meter_change d
           = some cs) ∧
    (∀ (env : ApiEnv) (st : Coordinator) (d : String) (m lm : ℚ),
       env.energy_meter = some m →
       st.cop_last_energy_meter d = some lm → m ≠ lm → ¬ m - lm > 0 →
       (update_cop env st d).cop_current d = st.cop_current d ∧
       (update_cop env st d).cop_last_energy_meter d = some m ∧
       (update_cop env st d).cop_energy_stored_at_meter_change d
           = get_energy_stored st d) ∧
    (∀ (st : Coordinator) (d : String) (q : ℚ),
       get_device_param st d "T02" = some (.num q) →
       get_energy_stored st d = some (300 * (1163 / 1000000) * q)) := by
  refine ⟨?_, ?_, ?_, ?_, ?_, ?_⟩
  · intro env st d h
    simp only [update_cop, h]
  · intro env st d m hm hlast hcur
    simp only [update_cop, hm, hlast]
    refine ⟨by simp, by simp, ?_⟩
    exact hcur
  · intro env st d m hm hlast
    simp only [update_cop, hm, hlast]
    simp
  · intro env st d m lm cs ss hm hlast hne hcs hss hpos
    simp only [update_cop, hm, hlast, if_neg hne, hcs, hss, if_pos hpos]
    exact ⟨by simp, by simp, by simp⟩
  · intro env st d m lm hm hlast hne hpos
    simp only [update_cop, hm, hlast, if_neg hne]
    rcases hcs : get_energy_stored st d with _ | cs <;>
      rcases hss : st.cop_energy_stored_at_meter_change d with _ | ss <;>
        simp only [hcs, hss]
    · exact ⟨trivial, by simp, by simp⟩
    · exact ⟨trivial, by simp, by simp⟩
    · exact ⟨trivial, by simp, by simp⟩
    · rw [if_neg hpos]
      exact ⟨rfl, by simp, by simp⟩
  · intro st d q h
    simp only [get_energy_stored, h, PValue.toFloat?, TANK_VOLUME_LITERS,
      SPECIFIC_HEAT_KWH]

/-- C5, witness: the case analysis at concrete inputs — absent meter;
first sample at meter `100`; unchanged meter `100`; meter `100 → 105` with
stored energies `24` (baseline) and `300·0.001163·70` (now); meter
`105 → 102` (decreasing, COP untouched but tracking rolled forward); and
the stored-energy formula at `T02 = 70`. -/
theorem C5_cop_update_cases_witness :
    update_cop (sample_env (.ok true) none) (sample_coordinator 70 65 60)
        "dev" = sample_coordinator 70 65 60 ∧
    ((update_cop (sample_env (.ok true) (some 100))
        (sample_coordinator 70 65 60) "dev").cop_last_energy_meter "dev"
        = some 100 ∧
     (update_cop (sample_env (.ok true) (some 100))
        (sample_coordinator 70 65 60)
        "dev").cop_energy_stored_at_meter_change "dev"
        = get_energy_stored (sample_coordinator 70 65 60) "dev" ∧
     (update_cop (sample_env (.ok true) (some 100))
        (sample_coordinator 70 65 60) "dev").cop_current "dev" = none) ∧
    update_cop (sample_env (.ok true) (some 100))
        (sample_cop 70 65 60 (some 100) (some 24) none) "dev"
        = sample_cop 70 65 60 (some 100) (some 24) none ∧
    ((update_cop (sample_env (.ok true) (some 105))
        (sample_cop 70 65 60 (some 100) (some 24) none) "dev").cop_current
        "dev" = some (round2 ((300 * (1163 / 1000000) * 70 - 24)
                                / (105 - 100))) ∧
     (update_cop (sample_env (.ok true) (some 105))
        (sample_cop 70 65 60 (some 100) (some 24) none)
        "dev").cop_last_energy_meter "dev" = some 105 ∧
     (update_cop (sample_env (.ok true) (some 105))
        (sample_cop 70 65 60 (some 100) (some 24) none)
        "dev").cop_energy_stored_at_meter_change "dev"
        = some (300 * (1163 / 1000000) * 70)) ∧
    ((update_cop (sample_env (.ok true) (some 102))
        (sample_cop 70 65 60 (some 105) (some 24) (some 1)) "dev").cop_current
        "dev" = (sample_cop 70 65 60 (some 105) (some 24)
          (some 1)).cop_current "dev" ∧
     (update_cop (sample_env (.ok true) (some 102))
        (sample_cop 70 65 60 (some 105) (some 24) (some 1))
        "dev").cop_last_energy_meter "dev" = some 102 ∧
     (update_cop (sample_env (.ok true) (some 102))
        (sample_cop 70 65 60 (some 105) (some 24) (some 1))
        "dev").cop_energy_stored_at_meter_change "dev"
        = get_energy_stored (sample_cop 70 65 60 (some 105) (some 24)
            (some 1)) "dev") ∧
    get_energy_stored (sample_coordinator 70 65 60) "dev"
        = some (300 * (1163 / 1000000) * 70) := by
  refine ⟨?_, ?_, ?_, ?_, ?_, ?_⟩
  · exact C5_cop_update_cases.1 (sample_env (.ok true) none)
      (sample_coordinator 70 65 60) "dev" rfl
  · exact C5_cop_update_cases.2.1 (sample_env (.ok true) (some 100))
      (sample_coordinator 70 65 60) "dev" 100 rfl
      (by simp [sample_coordinator, initial_coordinator])
      (by simp [sample_coordinator, initial_coordinator])
  · exact C5_cop_update_cases.2.2.1 (sample_env (.ok true) (some 100))
      (sample_cop 70 65 60 (some 100) (some 24) none) "dev" 100 rfl
      (by simp [sample_cop])
  · exact C5_cop_update_cases.2.2.2.1 (sample_env (.ok true) (some 105))
      (sample_cop 70 65 60 (some 100) (some 24) none) "dev"
      105 100 (300 * (1163 / 1000000) * 70) 24 rfl
      (by simp [sample_cop])
      (by norm_num)
      (by simp [get_energy_stored, get_device_param, sample_cop,
            sample_coordinator, sample_params, initial_coordinator,
            dget_cons, dget_nil, PValue.toFloat?, TANK_VOLUME_LITERS,
            SPECIFIC_HEAT_KWH])
      (by simp [sample_cop])
      (by norm_num)
  · exact C5_cop_update_cases.2.2.2.2.1 (sample_env (.ok true) (some 102))
      (sample_cop 70 65 60 (some 105) (some 24) (some 1)) "dev" 102 105 rfl
      (by simp [sample_cop])
      (by norm_num)
      (by norm_num)
  · exact C5_cop_update_cases.2.2.2.2.2 (sample_coordinator 70 65 60) "dev"
      70
      (by simp [get_device_param, sample_coordinator, sample_params,
            initial_coordinator, dget_cons, dget_nil])

/-- C8: snapshot atomicity — whenever a refresh cycle terminates with an
error (auth or connectivity, during the device listing or any register
read), the stored snapshot is untouched: for every device and register
code, `get_device_param` returns exactly what it returned before the
cycle. -/
theorem C8_failed_cycle_preserves_snapshot (env : ApiEnv)
    (st : Coordinator) (e : CycleErr)
    (h : (async_update_data env st).2 = .error e) :
    ∀ d c, get_device_param (async_update_data env st).1 d c
        = get_device_param st d c := by
  intro d c
  simp only [async_update_data] at h ⊢
  by_cases hc : st.client_initialized = false
  · rw [if_pos hc]
  · rw [if_neg hc] at h ⊢
    split at h
    · rename_i heq
      simp only [heq]
    · rename_i heq
      simp only [heq]
    · rename_i devs heq
      split at h
      · rename_i heq2
        simp only [heq, heq2]
        rfl
      · rename_i heq2
        simp only [heq, heq2]
        rfl
      · simp at h

/-- C8, witness: a connectivity failure while listing devices leaves the
previous one-device snapshot's `T02` value reachable unchanged. -/
theorem C8_failed_cycle_preserves_snapshot_witness :
    (async_update_data sample_env_down (sample_coordinator 70 65 60)).2
        = .error .updateFailed ∧
    get_device_param
        (async_update_data sample_env_down
          (sample_coordinator 70 65 60)).1 "dev" "T02"
        = get_device_param (sample_coordinator 70 65 60) "dev" "T02" := by
  have h2 : (async_update_data sample_env_down
      (sample_coordinator 70 65 60)).2 = .error .updateFailed := by
    simp [async_update_data, sample_env_down, sample_coordinator,
      initial_coordinator]
  exact ⟨h2, C8_failed_cycle_preserves_snapshot sample_env_down
    (sample_coordinator 70 65 60) .updateFailed h2 "dev" "T02"⟩

/-- C9: the bottom-control variant (modelled from the spec; its coordinator
implementation is absent from the provided sources while `climate.py`
calls it) — `enable_bottom_control`, `disable_bottom_control`,
`get_bottom_target`, `is_bottom_control_enabled`,
`calculate_r01_from_bottom_target` and `calculate_bottom_target_from_r01`
exist over the coordinator state with the single-sensor (`T03`) driver,
and its override policy ADOPTS: when the setpoint moved externally by more
than the deadband, the reconcile pass re-derives the implied target
`2·setpoint − driver`, adopts it, refreshes both baselines, stays enabled,
and issues no write. -/
theorem C9_bottom_variant_adopts :
    (∀ (st : Coordinator) (d : String) (t : ℚ),
       is_bottom_control_enabled (enable_bottom_control st d t) d = true ∧
       get_bottom_target (enable_bottom_control st d t) d = some t) ∧
    (∀ (st : Coordinator) (d : String),
       is_bottom_control_enabled (disable_bottom_control st d) d = false ∧
       get_bottom_target (disable_bottom_control st d) d = none) ∧
    (∀ (st : Coordinator) (d : String) (t dr : ℚ),
       get_bottom_driver st d = some dr →
       calculate_r01_from_bottom_target st d t
           = some (max MIN_TEMP (min MAX_TEMP ((t + dr) / 2)))) ∧
    (∀ (st : Coordinator) (d : String) (s dr : ℚ),
       get_bottom_driver st d = some dr →
       calculate_bottom_target_from_r01 st d (some (.num s))
           = some (2 * s - dr)) ∧
    (∀ (env : ApiEnv) (st : Coordinator) (d : String) (dr cr01 b : ℚ)
       (rv : PValue),
       is_bottom_control_enabled st d = true →
       get_bottom_driver st d = some dr →
       get_device_param st d "R01" = some rv → rv.toFloat? = some cr01 →
       st.bottom_last_r01 d = some b → |cr01 - b| > 1/10 →
       is_bottom_control_enabled (update_bottom_control env st d).1 d
           = true ∧
       get_bottom_target (update_bottom_control env st d).1 d
           = some (2 * cr01 - dr) ∧
       (update_bottom_control env st d).1.bottom_last_t03 d = some dr ∧
       (update_bottom_control env st d).1.bottom_last_r01 d = some cr01 ∧
       (update_bottom_control env st d).2.writes = []) := by
  refine ⟨?_, ?_, ?_, ?_, ?_⟩
  · intro st d t
    constructor <;>
      simp [enable_bottom_control, is_bottom_control_enabled,
        get_bottom_target]
  · intro st d
    constructor <;>
      simp [disable_bottom_control, is_bottom_control_enabled,
        get_bottom_target]
  · intro st d t dr h
    simp only [calculate_r01_from_bottom_target, h, pymax_eq, pymin_eq]
  · intro st d s dr h
    simp only [calculate_bottom_target_from_r01, h, PValue.toFloat?]
  · intro env st d dr cr01 b rv hen hdr hr hq hb hd
    have hd' : pyabs (cr01 - b) > 1/10 := by rw [pyabs_eq]; exact hd
    simp only [update_bottom_control, hen, if_true, hdr, hr, hq, hb,
      if_pos hd']
    have hen' : (st.bottom_control_enabled d).getD false = true := hen
    refine ⟨hen', ?_, ?_, ?_, rfl⟩ <;>
      simp [get_bottom_target, is_bottom_control_enabled, hen', WEff.nil]

/-- C9, witness: the bottom-control operations at concrete inputs,
including the ADOPT override — baseline setpoint `60`, observed setpoint
`65`, driver `T03 = 65`: the control stays enabled and re-aims its target
to `2·65 − 65 = 65` with both baselines refreshed and no write. -/
theorem C9_bottom_variant_adopts_witness :
    (is_bottom_control_enabled
        (enable_bottom_control (sample_coordinator 70 65 60) "dev" 48)
        "dev" = true ∧
     get_bottom_target
        (enable_bottom_control (sample_coordinator 70 65 60) "dev" 48)
        "dev" = some 48) ∧
    (is_bottom_control_enabled
        (disable_bottom_control
          (sample_bottom_enabled 70 65 65 (some 50) (some 65) (some 60))
          "dev") "dev" = false ∧
     get_bottom_target
        (disable_bottom_control
          (sample_bottom_enabled 70 65 65 (some 50) (some 65) (some 60))
          "dev") "dev" = none) ∧
    calculate_r01_from_bottom_target (sample_coordinator 70 65 60) "dev" 50
        = some (max MIN_TEMP (min MAX_TEMP ((50 + 65) / 2))) ∧
    calculate_bottom_target_from_r01 (sample_coordinator 70 65 60) "dev"
        (some (.num 60)) = some (2 * 60 - 65) ∧
    (is_bottom_control_enabled
        (update_bottom_control (sample_env (.ok true) none)
          (sample_bottom_enabled 70 65 65 (some 50) (some 65) (some 60))
          "dev").1 "dev" = true ∧
     get_bottom_target
        (update_bottom_control (sample_env (.ok true) none)
          (sample_bottom_enabled 70 65 65 (some 50) (some 65) (some 60))
          "dev").1 "dev" = some (2 * 65 - 65) ∧
     (update_bottom_control (sample_env (.ok true) none)
        (sample_bottom_enabled 70 65 65 (some 50) (some 65) (some 60))
        "dev").1.bottom_last_t03 "dev" = some 65 ∧
     (update_bottom_control (sample_env (.ok true) none)
        (sample_bottom_enabled 70 65 65 (some 50) (some 65) (some 60))
        "dev").1.bottom_last_r01 "dev" = some 65 ∧
     (update_bottom_control (sample_env (.ok true) none)
        (sample_bottom_enabled 70 65 65 (some 50) (some 65) (some 60))
        "dev").2.writes = []) := by
  refine ⟨?_, ?_, ?_, ?_, ?_⟩
  · exact C9_bottom_variant_adopts.1 (sample_coordinator 70 65 60) "dev" 48
  · exact C9_bottom_variant_adopts.2.1
      (sample_bottom_enabled 70 65 65 (some 50) (some 65) (some 60)) "dev"
  · exact C9_bottom_variant_adopts.2.2.1 (sample_coordinator 70 65 60)
      "dev" 50 65
      (by simp [get_bottom_driver, get_device_param, sample_coordinator,
            sample_params, initial_coordinator, dget_cons, dget_nil,
            PValue.toFloat?])
  · exact C9_bottom_variant_adopts.2.2.2.1 (sample_coordinator 70 65 60)
      "dev" 60 65
      (by simp [get_bottom_driver, get_device_param, sample_coordinator,
            sample_params, initial_coordinator, dget_cons, dget_nil,
            PValue.toFloat?])
  · exact C9_bottom_variant_adopts.2.2.2.2 (sample_env (.ok true) none)
      (sample_bottom_enabled 70 65 65 (some 50) (some 65) (some 60)) "dev"
      65 65 60 (.num 65)
      (by simp [is_bottom_control_enabled, sample_bottom_enabled])
      (by simp [get_bottom_driver, get_device_param, sample_bottom_enabled,
            sample_coordinator, sample_params, initial_coordinator,
            dget_cons, dget_nil, PValue.toFloat?])
      (by simp [get_device_param, sample_bottom_enabled,
            sample_coordinator, sample_params, initial_coordinator,
            dget_cons, dget_nil])
      rfl
      (by simp [sample_bottom_enabled])
      (by rw [abs_of_pos (by norm_num : (0:ℚ) < 65 - 60)]; norm_num)

/-- The reconcile pass never modifies the stored-target map. -/
theorem update_minimum_control_minimum_target (env : ApiEnv)
    (st : Coordinator) (d : String) :
    ((update_minimum_control env st d).1).minimum_target
        = st.minimum_target := by
  unfold update_minimum_control minimum_control_drift
    disable_minimum_control
  repeat' split
  all_goals rfl

/-- The reconcile pass never enables a control (it can only disable). -/
theorem update_minimum_control_enabled_mono (env : ApiEnv)
    (st : Coordinator) (d d' : String) :
    is_minimum_control_enabled (update_minimum_control env st d).1 d'
        = true →
    is_minimum_control_enabled st d' = true := by
  unfold update_minimum_control minimum_control_drift
    disable_minimum_control
  repeat' split
  all_goals intro h
  all_goals
    first
    | exact h
    | (revert h
       simp only [is_minimum_control_enabled, fupdate]
       by_cases hd : d' = d
       · simp [hd]
       · simp [hd])

/-- The COP pass never touches the minimum-control maps. -/
theorem update_cop_minimum_fields (env : ApiEnv) (st : Coordinator)
    (d : String) :
    (update_cop env st d).minimum_target = st.minimum_target ∧
    (update_cop env st d).minimum_control_enabled
        = st.minimum_control_enabled := by
  unfold update_cop
  dsimp only
  repeat' split
  all_goals exact ⟨rfl, rfl⟩

theorem update_minimum_control_MinInv (env : ApiEnv) (st : Coordinator)
    (d : String) (h : MinInv st) :
    MinInv (update_minimum_control env st d).1 := fun d' hd' => by
  rw [update_minimum_control_minimum_target]
  exact h d' (update_minimum_control_enabled_mono env st d d' hd')

theorem update_cop_MinInv (env : ApiEnv) (st : Coordinator) (d : String)
    (h : MinInv st) : MinInv (update_cop env st d) := fun d' hd' => by
  rw [(update_cop_minimum_fields env st d).1]
  apply h d'
  simp only [is_minimum_control_enabled,
    (update_cop_minimum_fields env st d).2] at hd'
  exact hd'

theorem run_control_loop_MinInv (env : ApiEnv) :
    ∀ (ds : List String) (st : Coordinator), MinInv st →
      MinInv (run_control_loop env ds st).1 := by
  intro ds
  induction ds with
  | nil => intro st h; exact h
  | cons d rest ih =>
    intro st h
    exact ih _ (update_cop_MinInv env _ d
      (update_minimum_control_MinInv env st d h))

theorem async_update_data_MinInv (env : ApiEnv) (st : Coordinator)
    (h : MinInv st) : MinInv (async_update_data env st).1 := by
  unfold async_update_data
  by_cases hc : st.client_initialized = false
  · rw [if_pos hc]; exact h
  · rw [if_neg hc]
    split
    · exact h
    · exact h
    · split
      · exact fun d' hd' => h d' hd'
      · exact fun d' hd' => h d' hd'
      · exact run_control_loop_MinInv env _ _ (fun d' hd' => h d' hd')

/-- C10: `get_minimum_target` returns a value exactly when the control is
enabled, given the invariant "while enabled a stored target exists"; the
invariant holds at process start and is preserved by enable, disable, the
reconcile pass, the COP pass and a whole poll cycle; and disable leaves the
stored target in the internal map (it only becomes unobservable). -/
theorem C10_target_iff_enabled :
    MinInv initial_coordinator ∧
    (∀ (st : Coordinator) (d : String), MinInv st →
       ((get_minimum_target st d).isSome = true ↔
         is_minimum_control_enabled st d = true)) ∧
    (∀ (st : Coordinator) (d : String) (t : ℚ), MinInv st →
       MinInv (enable_minimum_control st d t)) ∧
    (∀ (st : Coordinator) (d : String), MinInv st →
       MinInv (disable_minimum_control st d)) ∧
    (∀ (st : Coordinator) (d : String),
       (disable_minimum_control st d).minimum_target
         = st.minimum_target) ∧
    (∀ (env : ApiEnv) (st : Coordinator) (d : String), MinInv st →
       MinInv (update_minimum_control env st d).1) ∧
    (∀ (env : ApiEnv) (st : Coordinator) (d : String), MinInv st →
       MinInv (update_cop env st d)) ∧
    (∀ (env : ApiEnv) (st : Coordinator), MinInv st →
       MinInv (async_update_data env st).1) := by
  refine ⟨?_, ?_, ?_, ?_, fun st d => rfl,
    update_minimum_control_MinInv, update_cop_MinInv,
    async_update_data_MinInv⟩
  · intro d h
    simp [is_minimum_control_enabled, initial_coordinator] at h
  · intro st d h
    cases he : is_minimum_control_enabled st d with
    | false => simp [get_minimum_target, he]
    | true => simp [get_minimum_target, he, h d he]
  · intro st d t h d' hd'
    simp only [enable_minimum_control, is_minimum_control_enabled]
      at hd' ⊢
    by_cases hdd : d' = d
    · subst hdd; simp
    · rw [fupdate_other _ _ _ _ hdd] at hd' ⊢
      exact h d' hd'
  · intro st d h d' hd'
    simp only [disable_minimum_control, is_minimum_control_enabled] at hd'
    by_cases hdd : d' = d
    · subst hdd
      rw [fupdate_same] at hd'
      simp at hd'
    · rw [fupdate_other _ _ _ _ hdd] at hd'
      exact h d' hd'

/-- C10, witness: the invariant and the observability biconditional at a
concrete enabled state (target `50` stored for `"dev"`), plus preservation
along enable, disable, the reconcile pass and a whole poll cycle from that
state. -/
theorem C10_target_iff_enabled_witness :
    MinInv initial_coordinator ∧
    ((get_minimum_target
        (sample_min_enabled 70 65 60 (some 50) (some 70) (some 60))
        "dev").isSome = true ↔
      is_minimum_control_enabled
        (sample_min_enabled 70 65 60 (some 50) (some 70) (some 60))
        "dev" = true) ∧
    MinInv (enable_minimum_control
      (sample_min_enabled 70 65 60 (some 50) (some 70) (some 60))
      "dev" 48) ∧
    MinInv (disable_minimum_control
      (sample_min_enabled 70 65 60 (some 50) (some 70) (some 60))
      "dev") ∧
    (disable_minimum_control
        (sample_min_enabled 70 65 60 (some 50) (some 70) (some 60))
        "dev").minimum_target
      = (sample_min_enabled 70 65 60 (some 50) (some 70)
          (some 60)).minimum_target ∧
    MinInv (update_minimum_control (sample_env (.ok true) none)
      (sample_min_enabled 70 65 60 (some 50) (some 70) (some 60))
      "dev").1 ∧
    MinInv (update_cop (sample_env (.ok true) none)
      (sample_min_enabled 70 65 60 (some 50) (some 70) (some 60))
      "dev") ∧
    MinInv (async_update_data (sample_env (.ok true) none)
      (sample_min_enabled 70 65 60 (some 50) (some 70) (some 60))).1 := by
  have inv10 : MinInv
      (sample_min_enabled 70 65 60 (some 50) (some 70) (some 60)) := by
    intro d h
    by_cases hd : d = "dev"
    · simp [sample_min_enabled, hd]
    · simp [sample_min_enabled, is_minimum_control_enabled, hd] at h
  exact ⟨C10_target_iff_enabled.1,
    C10_target_iff_enabled.2.1 _ "dev" inv10,
    C10_target_iff_enabled.2.2.1 _ "dev" 48 inv10,
    C10_target_iff_enabled.2.2.2.1 _ "dev" inv10,
    C10_target_iff_enabled.2.2.2.2.1 _ "dev",
    C10_target_iff_enabled.2.2.2.2.2.1 (sample_env (.ok true) none) _
      "dev" inv10,
    C10_target_iff_enabled.2.2.2.2.2.2.1 (sample_env (.ok true) none) _
      "dev" inv10,
    C10_target_iff_enabled.2.2.2.2.2.2.2 (sample_env (.ok true) none) _
      inv10⟩

end HiTemp
